import Mathlib

/-
Verification of `src/components/audio-feedback.js`.

The JavaScript source is shallowly embedded: numbers are modelled as exact
rationals (and reals where a square root is taken), JS truthiness of the
optional values `t` and `this.lastSeenVolume` (undefined and 0 are falsy) is
modelled explicitly, and JS `NaN` arising from `0/0` is modelled as `none` in
an `Option` result.
-/

namespace AudioFeedback

/-! ## Constants (lines 5-7 of the source) -/

def DISABLE_AT_VOLUME_THRESHOLD : ℚ := 0.00001

def DISABLE_GRACE_PERIOD_MS : ℚ := 10000

def MIN_VOLUME_THRESHOLD : ℚ := 0.01

/-! ## The networked-audio-analyser component state

Fields mirror the instance fields set in `init` and mutated by
`_updateAnalysis`.  `lastSeenVolume` and the timestamp argument `t` are
`Option ℚ` because in JS they may be `undefined`; JS treats both `undefined`
and `0` as falsy in `if (t)` and in `t && this.lastSeenVolume && ...`, which
the embedding checks explicitly.  `hasAnalyser` records whether
`this.analyser` has been set by the "sound-source-set" listener. -/

structure AnalyserState where
  volume : ℚ
  prevVolume : ℚ
  immediateVolume : ℚ
  smoothing : ℚ
  lastSeenVolume : Option ℚ
  avatarIsQuiet : Bool
  hasAnalyser : Bool
  deriving DecidableEq

/-- State after `init` ran and the "sound-source-set" event bound the analyser:
`volume = prevVolume = immediateVolume = 0`, `smoothing = 0.3`,
`lastSeenVolume` and `avatarIsQuiet` still undefined (falsy). -/
def analyserInit : AnalyserState :=
  { volume := 0
    prevVolume := 0
    immediateVolume := 0
    smoothing := 0.3
    lastSeenVolume := none
    avatarIsQuiet := false
    hasAnalyser := true }

/-- The smoothed volume computed on line 78:
`this.smoothing * this.immediateVolume + (1 - this.smoothing) * this.prevVolume`,
where the immediate volume is the `getVolume` reading of the externally
refreshed waveform buffer, here passed in as `immediate`. -/
def newVolume (s : AnalyserState) (immediate : ℚ) : ℚ :=
  s.smoothing * immediate + (1 - s.smoothing) * s.prevVolume

/-- Embedding of `_updateAnalysis(t)` (lines 72-92).  `t : Option ℚ` is the
optional timestamp (`none` when called with no argument from the scheduled
path); `immediate` is the volume extracted from the freshly read buffer.
JS truthiness: `if (t)` and the conjuncts `t && this.lastSeenVolume` are
false when the value is `undefined` (`none`) or `0`. -/
def updateAnalysis (s : AnalyserState) (t : Option ℚ) (immediate : ℚ) :
    AnalyserState :=
  if s.hasAnalyser = false then s
  else
    let v := newVolume s immediate
    let s1 := { s with immediateVolume := immediate, volume := v, prevVolume := v }
    if v < DISABLE_AT_VOLUME_THRESHOLD then
      match t, s1.lastSeenVolume with
      | some tv, some l0 =>
        if tv ≠ 0 ∧ l0 ≠ 0 ∧ l0 < tv - DISABLE_GRACE_PERIOD_MS then
          { s1 with avatarIsQuiet := true }
        else s1
      | _, _ => s1
    else
      let s2 :=
        match t with
        | some tv => if tv ≠ 0 then { s1 with lastSeenVolume := some tv } else s1
        | none => s1
      { s2 with avatarIsQuiet := false }

/-- Embedding of `tick(t)` (lines 56-60): runs `_updateAnalysis(t)` unless the
avatar is currently marked quiet. -/
def analyserTick (s : AnalyserState) (t : ℚ) (immediate : ℚ) : AnalyserState :=
  if s.avatarIsQuiet = false then updateAnalysis s (some t) immediate else s

/-- Embedding of `_runScheduledWork()` (lines 62-66): runs
`_updateAnalysis()` (no timestamp) only when the avatar is marked quiet. -/
def runScheduledWork (s : AnalyserState) (immediate : ℚ) : AnalyserState :=
  if s.avatarIsQuiet = true then updateAnalysis s none immediate else s

/-! ## Volume extraction (`getVolume`, lines 9-17)

The buffer is a list of byte samples (`Uint8Array` entries, modelled as
integers).  JS arithmetic: when `levels.length` is `0` the loop contributes
nothing, so `sum / levels.length` is `0 / 0 = NaN`; `Math.sqrt(NaN) = NaN`;
`NaN < MIN_VOLUME_THRESHOLD` is `false`, so the function returns `NaN`.
`NaN` is modelled as `none`; on a nonempty buffer all arithmetic is ordinary
real arithmetic. -/

noncomputable def getVolume (levels : List ℤ) : Option ℝ :=
  let sum : ℝ :=
    (levels.map fun (lev : ℤ) =>
      (((lev : ℝ) - 128) / 128) * (((lev : ℝ) - 128) / 128)).sum
  if levels.length = 0 then
    none
  else
    let currVolume := Real.sqrt (sum / (levels.length : ℝ))
    if currVolume < (MIN_VOLUME_THRESHOLD : ℝ) then some 0 else some currVolume

/-- The root-mean-square of the normalized samples, as the spec describes it:
`sqrt(mean of ((sample - 128)/128)^2)`.  Stated for comparison against
`getVolume`; only meaningful on nonempty buffers. -/
noncomputable def rmsOf (levels : List ℤ) : ℝ :=
  Real.sqrt (((levels.map fun (lev : ℤ) => (((lev : ℝ) - 128) / 128) ^ 2).sum) /
    (levels.length : ℝ))

/-! ## Distance scale mapping (`getAudioFeedbackScale`, lines 22-27) -/

/-- A world-space position, as extracted from an object's world matrix. -/
structure Vec3 where
  x : ℝ
  y : ℝ
  z : ℝ

/-- Euclidean distance between two positions (`Vector3.distanceTo`). -/
noncomputable def distanceTo (a b : Vec3) : ℝ :=
  Real.sqrt ((a.x - b.x) ^ 2 + (a.y - b.y) ^ 2 + (a.z - b.z) ^ 2)

/-- Embedding of `getAudioFeedbackScale` (lines 22-27), with the two objects
represented by their world positions. -/
noncomputable def getAudioFeedbackScale (fromPos toPos : Vec3)
    (minScale maxScale volume : ℝ) : ℝ :=
  let distance := distanceTo fromPos toPos / 10
  min maxScale (minScale + (maxScale - minScale) * volume * 8 * distance)

/-! ## The frame-scheduler registrations used by the component

The component `init` (line 42) registers `this._updateAnalysis` under group
key "audio-analyser"; `remove` (line 53) unregisters
`this._runScheduledWork` under the same key.  The two bound callbacks are
distinct functions. -/

/-- The two bound callbacks the component holds after `init`. -/
inductive AnalyserCallback where
  | updateAnalysisCb
  | runScheduledWorkCb
  deriving DecidableEq

/-- Modelled from the spec: the `frame-scheduler` system is repository code
not under `src/`.  Per the spec's scheduler interface,
`schedule(callback, groupKey)` adds a registration to the scheduler's
registry. -/
def schedule (regs : List (AnalyserCallback × String)) (cb : AnalyserCallback)
    (g : String) : List (AnalyserCallback × String) :=
  regs ++ [(cb, g)]

/-- Modelled from the spec: `unschedule(callback, groupKey)` removes that
callback's registration (all matching entries) from the scheduler's
registry. -/
def unschedule (regs : List (AnalyserCallback × String)) (cb : AnalyserCallback)
    (g : String) : List (AnalyserCallback × String) :=
  regs.filter fun r => ¬(r.1 = cb ∧ r.2 = g)

/-- The scheduler registration made by `init` (line 42):
`schedule(this._updateAnalysis, "audio-analyser")`. -/
def analyserInitSchedule (regs : List (AnalyserCallback × String)) :
    List (AnalyserCallback × String) :=
  schedule regs .updateAnalysisCb "audio-analyser"

/-- The scheduler removal made by `remove` (line 53):
`unschedule(this._runScheduledWork, "audio-analyser")`. -/
def analyserRemoveUnschedule (regs : List (AnalyserCallback × String)) :
    List (AnalyserCallback × String) :=
  unschedule regs .runScheduledWorkCb "audio-analyser"

/-! ## The local-audio-analyser subscriber list (lines 104, 107-118) -/

section Subscribers

variable {α : Type} [DecidableEq α]

/-- Embedding of `subscribe(ii)` (lines 107-111): `indexOf(ii) === -1` is
exactly non-membership, in which case `ii` is pushed onto the end of the
list. -/
def subscribe (subscribers : List α) (ii : α) : List α :=
  if ii ∈ subscribers then subscribers else subscribers ++ [ii]

/-- Embedding of `unsubscribe(ii)` (lines 113-118): `indexOf` finds the first
occurrence of `ii` and `splice(index, 1)` removes that single element; when
`indexOf` returns `-1` (non-membership) nothing changes.  This recursion
removes exactly the first occurrence. -/
def unsubscribe : List α → α → List α
  | [], _ => []
  | a :: rest, ii => if a = ii then rest else a :: unsubscribe rest ii

end Subscribers

/-! ## The mic-button component (lines 182-238) -/

/-- The `micLevels` icon table (lines 182-191). -/
def micLevels : List String :=
  ["mic-level-1.png", "mic-level-1.png", "mic-level-2.png", "mic-level-3.png",
   "mic-level-4.png", "mic-level-5.png", "mic-level-7.png", "mic-level-7.png"]

/-- State of the mic-button component set in its `init` (lines 193-198) and
mutated by `tick`. -/
structure MicButtonState where
  loudest : ℚ
  prevImage : String
  decayingVolume : ℚ
  smoothing : ℚ
  deriving DecidableEq

/-- The mic-button state right after `init` (lines 193-198). -/
def micButtonInit : MicButtonState :=
  { loudest := 0, prevImage := "", decayingVolume := 0, smoothing := 0.8 }

/-- The level-bucketing conditional of `mic-button.tick` (lines 220-231):
nested comparisons of `volume` against fractions of `this.loudest`. -/
def micButtonLevel (volume loudest : ℚ) : ℕ :=
  if volume < loudest * 0.1 then 1
  else if volume < loudest * 0.2 then 2
  else if volume < loudest * 0.45 then 3
  else if volume < loudest * 0.6 then 4
  else if volume < loudest * 0.8 then 5
  else 7

/-- One decay step of the envelope (line 217):
`volume = this.decayingVolume * this.smoothing < 0.001 ? 0 : this.decayingVolume * this.smoothing`
with `smoothing = 0.8`. -/
def decayStep (dv : ℚ) : ℚ :=
  if dv * 0.8 < 0.001 then 0 else dv * 0.8

/-- Embedding of `mic-button.tick` (lines 199-237), with the analyser's
`immediateVolume` passed in as input (the subscribe/unsubscribe side
effects act on the shared analyser's list and are modelled separately).
Returns the new state together with the selected discrete level. -/
def micButtonTick (s : MicButtonState) (immediateVolume : ℚ) :
    MicButtonState × ℕ :=
  if immediateVolume > s.decayingVolume then
    let volume := immediateVolume
    let loudest := max s.loudest volume
    let level := micButtonLevel volume loudest
    let newimage := micLevels.getD level ""
    let prevImage := if newimage ≠ s.prevImage then newimage else s.prevImage
    ({ s with decayingVolume := volume, loudest := loudest,
              prevImage := prevImage }, level)
  else
    let volume :=
      if s.decayingVolume * s.smoothing < 0.001 then 0
      else s.decayingVolume * s.smoothing
    let level := micButtonLevel volume s.loudest
    let newimage := micLevels.getD level ""
    let prevImage := if newimage ≠ s.prevImage then newimage else s.prevImage
    ({ s with decayingVolume := volume, prevImage := prevImage }, level)

/-! ## Helper lemmas characterizing `_updateAnalysis` -/

/-- When the smoothed volume stays below the disable threshold, the update
never touches `lastSeenVolume`, and the avatar ends up marked quiet exactly
when it already was, or the timestamped grace check fires: the call carries a
truthy (nonzero) timestamp, a truthy `lastSeenVolume` exists, and that last
seen time is strictly more than the grace period before the timestamp. -/
lemma updateAnalysis_below (s : AnalyserState) (t : Option ℚ) (iv : ℚ)
    (hb : newVolume s iv < DISABLE_AT_VOLUME_THRESHOLD) :
    (updateAnalysis s t iv).lastSeenVolume = s.lastSeenVolume ∧
    ((updateAnalysis s t iv).avatarIsQuiet = true ↔
      (s.avatarIsQuiet = true ∨ (s.hasAnalyser = true ∧ ∃ tv l0, t = some tv ∧
        s.lastSeenVolume = some l0 ∧
        tv ≠ 0 ∧ l0 ≠ 0 ∧ l0 < tv - DISABLE_GRACE_PERIOD_MS))) := by
  unfold updateAnalysis
  rcases hA : s.hasAnalyser with _ | _
  · simp [hA]
  · simp only [hA, Bool.true_eq_false, if_false, if_pos hb]
    rcases t with _ | tv <;> rcases hls : s.lastSeenVolume with _ | l0 <;>
      simp_all
    split_ifs with hc <;> simp_all

/-- When the smoothed volume reaches the disable threshold, the update always
clears `avatarIsQuiet`, and records the timestamp into `lastSeenVolume`
exactly when the call carries a truthy (nonzero) timestamp. -/
lemma updateAnalysis_above (s : AnalyserState) (t : Option ℚ) (iv : ℚ)
    (hA : s.hasAnalyser = true)
    (ha : ¬ (newVolume s iv < DISABLE_AT_VOLUME_THRESHOLD)) :
    (updateAnalysis s t iv).avatarIsQuiet = false ∧
    (updateAnalysis s t iv).lastSeenVolume =
      (match t with
       | some tv => if tv ≠ 0 then some tv else s.lastSeenVolume
       | none => s.lastSeenVolume) := by
  unfold updateAnalysis
  simp only [hA, Bool.true_eq_false, if_false, if_neg ha]
  rcases t with _ | tv <;> simp
  split_ifs <;> simp

/-- Before the "sound-source-set" event binds an analyser, `_updateAnalysis`
returns immediately and the state is unchanged. -/
lemma updateAnalysis_noAnalyser (s : AnalyserState) (t : Option ℚ) (iv : ℚ)
    (h : s.hasAnalyser = false) : updateAnalysis s t iv = s := by
  unfold updateAnalysis
  simp [h]

/-! ## C1 -/

/-- C1 trace A: timestamped call at `t = 0` with immediate volume `0.00004`,
whose smoothed volume `0.000012` is above the disable threshold. -/
def c1TraceA1 : AnalyserState := analyserTick analyserInit 0 0.00004

/-- C1 trace A continued: timestamped call at `t = 10000` with immediate
volume `0`, whose smoothed volume is below the disable threshold. -/
def c1TraceA2 : AnalyserState := analyserTick c1TraceA1 10000 0

/-- C1 trace B: same as trace A but starting at `t = 1` (a truthy timestamp,
so `lastSeenVolume` is recorded). -/
def c1TraceB1 : AnalyserState := analyserTick analyserInit 1 0.00004

/-- C1 trace B continued: timestamped call at `t = 10001`, i.e. elapsed time
since `lastSeenVolume = 1` exactly equal to `DISABLE_GRACE_PERIOD_MS`. -/
def c1TraceB2 : AnalyserState := analyserTick c1TraceB1 10001 0

/-- C1 counterexample.  The claim says that after an above-threshold
timestamped call at `t = 0` and below-threshold timestamped calls thereafter,
`isQuiet` becomes true at the call whose elapsed time equals
`DISABLE_GRACE_PERIOD_MS` (10000 ms).  It does not: (trace A) a `t = 0`
timestamp is falsy in JS, so the above-threshold call at `t = 0` records no
`lastSeenVolume` and the call at `t = 10000` leaves `avatarIsQuiet` false;
(trace B) even with a truthy start timestamp `t = 1`, the comparison
`lastSeenVolume < t - DISABLE_GRACE_PERIOD_MS` is strict, so at elapsed time
exactly 10000 ms (`t = 10001`) `avatarIsQuiet` is still false. -/
theorem c1_counterexample :
    (DISABLE_AT_VOLUME_THRESHOLD < c1TraceA1.volume ∧
      c1TraceA1.lastSeenVolume = none ∧
      c1TraceA2.volume < DISABLE_AT_VOLUME_THRESHOLD ∧
      c1TraceA2.avatarIsQuiet = false) ∧
    (DISABLE_AT_VOLUME_THRESHOLD < c1TraceB1.volume ∧
      c1TraceB1.lastSeenVolume = some 1 ∧
      c1TraceB2.volume < DISABLE_AT_VOLUME_THRESHOLD ∧
      c1TraceB2.avatarIsQuiet = false) := by
  norm_num [c1TraceA2, c1TraceA1, c1TraceB2, c1TraceB1, analyserTick,
    updateAnalysis, analyserInit, newVolume, DISABLE_AT_VOLUME_THRESHOLD,
    DISABLE_GRACE_PERIOD_MS]

/-- C1 (amended): for the quiet state machine, if the smoothed volume reaches
the disable threshold at a timestamped call with nonzero timestamp `t0`, the
call records `lastSeenVolume = t0` and leaves `isQuiet` false; from a
non-quiet state with recorded `lastSeenVolume = t0 ≠ 0`, a timestamped
below-threshold call at time `ta ≤ t0 + DISABLE_GRACE_PERIOD_MS` (elapsed
time at most — including exactly — the grace period) leaves `isQuiet` false,
while a below-threshold call at a nonzero time `tb > t0 +
DISABLE_GRACE_PERIOD_MS` sets `isQuiet` true; and any single update (even
unscheduled/untimestamped) whose smoothed volume is at or above the threshold
sets `isQuiet` back to false. -/
theorem c1_amended_theorem
    (s s2 s3 : AnalyserState) (t0 ta tb iv iv2a iv2b iv3 : ℚ) (t3 : Option ℚ)
    (hA : s.hasAnalyser = true) (ht0 : t0 ≠ 0)
    (habove : DISABLE_AT_VOLUME_THRESHOLD ≤ newVolume s iv)
    (h2A : s2.hasAnalyser = true) (h2last : s2.lastSeenVolume = some t0)
    (h2q : s2.avatarIsQuiet = false)
    (hbelowa : newVolume s2 iv2a < DISABLE_AT_VOLUME_THRESHOLD)
    (hbelowb : newVolume s2 iv2b < DISABLE_AT_VOLUME_THRESHOLD)
    (hta : ta ≤ t0 + DISABLE_GRACE_PERIOD_MS)
    (htb : tb ≠ 0) (hgrace : t0 + DISABLE_GRACE_PERIOD_MS < tb)
    (h3A : s3.hasAnalyser = true)
    (habove3 : DISABLE_AT_VOLUME_THRESHOLD ≤ newVolume s3 iv3) :
    (updateAnalysis s (some t0) iv).lastSeenVolume = some t0 ∧
    (updateAnalysis s (some t0) iv).avatarIsQuiet = false ∧
    (updateAnalysis s2 (some ta) iv2a).avatarIsQuiet = false ∧
    (updateAnalysis s2 (some tb) iv2b).avatarIsQuiet = true ∧
    (updateAnalysis s3 t3 iv3).avatarIsQuiet = false := by
  have h1 := updateAnalysis_above s (some t0) iv hA (not_lt.mpr habove)
  have h3 := updateAnalysis_above s3 t3 iv3 h3A (not_lt.mpr habove3)
  have h2a := updateAnalysis_below s2 (some ta) iv2a hbelowa
  have h2b := updateAnalysis_below s2 (some tb) iv2b hbelowb
  refine ⟨?_, h1.1, ?_, ?_, h3.1⟩
  · rw [h1.2]; simp [ht0]
  · rcases hq : (updateAnalysis s2 (some ta) iv2a).avatarIsQuiet with _ | _
    · rfl
    · exfalso
      rcases h2a.2.mp hq with hcontra | ⟨_, tv, l0, htv, hl0, _, _, hlt⟩
      · rw [h2q] at hcontra; exact Bool.false_ne_true hcontra
      · rw [h2last] at hl0
        injection htv with htv
        injection hl0 with hl0
        subst htv; subst hl0
        linarith
  · refine h2b.2.mpr (Or.inr ⟨h2A, tb, t0, rfl, h2last, htb, ht0, by linarith⟩)

/-- C1 witness: the amended theorem evaluated at a concrete scenario
(`t0 = 1`, check at `ta = 10001` — elapsed exactly the grace period — stays
false, check at `tb = 10002` turns quiet, above-threshold update clears). -/
theorem c1_witness :
    (updateAnalysis analyserInit (some 1) 0.00004).lastSeenVolume = some 1 ∧
    (updateAnalysis analyserInit (some 1) 0.00004).avatarIsQuiet = false ∧
    (updateAnalysis { analyserInit with lastSeenVolume := some 1 }
      (some 10001) 0).avatarIsQuiet = false ∧
    (updateAnalysis { analyserInit with lastSeenVolume := some 1 }
      (some 10002) 0).avatarIsQuiet = true ∧
    (updateAnalysis { analyserInit with avatarIsQuiet := true }
      none 1).avatarIsQuiet = false :=
  c1_amended_theorem analyserInit { analyserInit with lastSeenVolume := some 1 }
    { analyserInit with avatarIsQuiet := true } 1 10001 10002 0.00004 0 0 1 none
    rfl (by norm_num)
    (by norm_num [newVolume, analyserInit, DISABLE_AT_VOLUME_THRESHOLD])
    rfl rfl rfl
    (by norm_num [newVolume, analyserInit, DISABLE_AT_VOLUME_THRESHOLD])
    (by norm_num [newVolume, analyserInit, DISABLE_AT_VOLUME_THRESHOLD])
    (by norm_num [DISABLE_GRACE_PERIOD_MS]) (by norm_num)
    (by norm_num [DISABLE_GRACE_PERIOD_MS]) rfl
    (by norm_num [newVolume, analyserInit, DISABLE_AT_VOLUME_THRESHOLD])

/-! ## C2 -/

/-- C2: an update without a timestamp (the scheduled background path) never
changes `isQuiet` from false to true; from a non-quiet state, an update that
does end with `isQuiet = true` must be a timestamped call with truthy
timestamp `tv` and a recorded truthy `lastSeenVolume = l0` with
`l0 + DISABLE_GRACE_PERIOD_MS < tv` (the grace period has elapsed); and a
non-timestamped update whose smoothed volume is at or above the threshold
clears `isQuiet` to false. -/
theorem c2_theorem
    (s s2 s3 : AnalyserState) (iv iv2 iv3 : ℚ) (t : Option ℚ)
    (hq : s.avatarIsQuiet = false)
    (h2q : s2.avatarIsQuiet = false)
    (h2 : (updateAnalysis s2 t iv2).avatarIsQuiet = true)
    (h3A : s3.hasAnalyser = true)
    (habove3 : DISABLE_AT_VOLUME_THRESHOLD ≤ newVolume s3 iv3) :
    (updateAnalysis s none iv).avatarIsQuiet = false ∧
    (∃ tv l0, t = some tv ∧ tv ≠ 0 ∧ s2.lastSeenVolume = some l0 ∧ l0 ≠ 0 ∧
      l0 + DISABLE_GRACE_PERIOD_MS < tv) ∧
    (updateAnalysis s3 none iv3).avatarIsQuiet = false := by
  refine ⟨?_, ?_, (updateAnalysis_above s3 none iv3 h3A (not_lt.mpr habove3)).1⟩
  · rcases hA : s.hasAnalyser with _ | _
    · rw [updateAnalysis_noAnalyser s none iv hA]; exact hq
    · rcases lt_or_le (newVolume s iv) DISABLE_AT_VOLUME_THRESHOLD with hb | ha
      · rcases hres : (updateAnalysis s none iv).avatarIsQuiet with _ | _
        · rfl
        · exfalso
          rcases (updateAnalysis_below s none iv hb).2.mp hres with
            hcontra | ⟨_, tv, l0, htv, _⟩
          · rw [hq] at hcontra; exact Bool.false_ne_true hcontra
          · exact Option.noConfusion htv
      · exact (updateAnalysis_above s none iv hA (not_lt.mpr ha)).1
  · rcases hA2 : s2.hasAnalyser with _ | _
    · rw [updateAnalysis_noAnalyser s2 t iv2 hA2, h2q] at h2
      exact absurd h2 Bool.false_ne_true
    · rcases lt_or_le (newVolume s2 iv2) DISABLE_AT_VOLUME_THRESHOLD with hb | ha
      · rcases (updateAnalysis_below s2 t iv2 hb).2.mp h2 with
          hcontra | ⟨_, tv, l0, htv, hl0, htv0, hl00, hlt⟩
        · rw [h2q] at hcontra; exact absurd hcontra Bool.false_ne_true
        · exact ⟨tv, l0, htv, htv0, hl0, hl00, by linarith⟩
      · rw [(updateAnalysis_above s2 t iv2 hA2 (not_lt.mpr ha)).1] at h2
        exact absurd h2 Bool.false_ne_true

/-- C2 witness: the theorem evaluated at concrete states — a background
update on a fresh non-quiet state, a timestamped update at `t = 20000` that
does turn a state with `lastSeenVolume = 1` quiet, and an above-threshold
background update. -/
theorem c2_witness :
    (updateAnalysis analyserInit none 0).avatarIsQuiet = false ∧
    (∃ tv l0, (some (20000:ℚ)) = some tv ∧ tv ≠ 0 ∧
      ({ analyserInit with lastSeenVolume := some 1 } :
        AnalyserState).lastSeenVolume = some l0 ∧ l0 ≠ 0 ∧
      l0 + DISABLE_GRACE_PERIOD_MS < tv) ∧
    (updateAnalysis analyserInit none 1).avatarIsQuiet = false :=
  c2_theorem analyserInit { analyserInit with lastSeenVolume := some 1 }
    analyserInit 0 0 1 (some 20000) rfl rfl
    (by norm_num [updateAnalysis, analyserInit, newVolume,
      DISABLE_AT_VOLUME_THRESHOLD, DISABLE_GRACE_PERIOD_MS])
    rfl
    (by norm_num [newVolume, analyserInit, DISABLE_AT_VOLUME_THRESHOLD])

/-! ## C10 -/

/-- C10: a main-path update whose timestamp is exactly 0 behaves identically
to a background (untimestamped) update: the whole resulting state is the
same, `lastSeenVolume` is never recorded (even when the volume is at or above
threshold), and a non-quiet state stays non-quiet; moreover a recorded
`lastSeenVolume` of 0 is treated as "never seen above threshold": the quiet
transition can never fire against it, so a non-quiet state stays non-quiet
under every update. -/
theorem c10_theorem
    (s s2 : AnalyserState) (iv iv2 : ℚ) (t : Option ℚ)
    (hq : s.avatarIsQuiet = false)
    (h2last : s2.lastSeenVolume = some 0)
    (h2q : s2.avatarIsQuiet = false) :
    updateAnalysis s (some 0) iv = updateAnalysis s none iv ∧
    (updateAnalysis s (some 0) iv).lastSeenVolume = s.lastSeenVolume ∧
    (updateAnalysis s (some 0) iv).avatarIsQuiet = false ∧
    (updateAnalysis s2 t iv2).avatarIsQuiet = false := by
  have heq : updateAnalysis s (some 0) iv = updateAnalysis s none iv := by
    rcases hA : s.hasAnalyser with _ | _
    · rw [updateAnalysis_noAnalyser s (some 0) iv hA,
        updateAnalysis_noAnalyser s none iv hA]
    · by_cases hv : newVolume s iv < DISABLE_AT_VOLUME_THRESHOLD
      · unfold updateAnalysis
        rcases hls : s.lastSeenVolume with _ | l0 <;> simp [hA, hv, hls]
      · unfold updateAnalysis
        simp [hA, hv]
  refine ⟨heq, ?_, ?_, ?_⟩
  · rw [heq]
    rcases hA : s.hasAnalyser with _ | _
    · rw [updateAnalysis_noAnalyser s none iv hA]
    · rcases lt_or_le (newVolume s iv) DISABLE_AT_VOLUME_THRESHOLD with hb | ha
      · exact (updateAnalysis_below s none iv hb).1
      · rw [(updateAnalysis_above s none iv hA (not_lt.mpr ha)).2]
  · rw [heq]
    rcases hA : s.hasAnalyser with _ | _
    · rw [updateAnalysis_noAnalyser s none iv hA]; exact hq
    · rcases lt_or_le (newVolume s iv) DISABLE_AT_VOLUME_THRESHOLD with hb | ha
      · rcases hres : (updateAnalysis s none iv).avatarIsQuiet with _ | _
        · rfl
        · exfalso
          rcases (updateAnalysis_below s none iv hb).2.mp hres with
            hcontra | ⟨_, tv, l0, htv, _⟩
          · rw [hq] at hcontra; exact Bool.false_ne_true hcontra
          · exact Option.noConfusion htv
      · exact (updateAnalysis_above s none iv hA (not_lt.mpr ha)).1
  · rcases hA2 : s2.hasAnalyser with _ | _
    · rw [updateAnalysis_noAnalyser s2 t iv2 hA2]; exact h2q
    · rcases lt_or_le (newVolume s2 iv2) DISABLE_AT_VOLUME_THRESHOLD with hb | ha
      · rcases hres : (updateAnalysis s2 t iv2).avatarIsQuiet with _ | _
        · rfl
        · exfalso
          rcases (updateAnalysis_below s2 t iv2 hb).2.mp hres with
            hcontra | ⟨_, tv, l0, _, hl0, _, hl00, _⟩
          · rw [h2q] at hcontra; exact Bool.false_ne_true hcontra
          · rw [h2last] at hl0
            injection hl0 with hl0
            exact hl00 hl0.symm
      · exact (updateAnalysis_above s2 t iv2 hA2 (not_lt.mpr ha)).1

/-- C10 witness: the theorem evaluated at a fresh analyser state receiving an
above-threshold volume at timestamp 0, and at a state whose recorded
`lastSeenVolume` is 0 receiving a below-threshold timestamped update far past
the grace period. -/
theorem c10_witness :
    updateAnalysis analyserInit (some 0) 1 = updateAnalysis analyserInit none 1 ∧
    (updateAnalysis analyserInit (some 0) 1).lastSeenVolume =
      analyserInit.lastSeenVolume ∧
    (updateAnalysis analyserInit (some 0) 1).avatarIsQuiet = false ∧
    (updateAnalysis { analyserInit with lastSeenVolume := some 0 }
      (some 99999) 0).avatarIsQuiet = false :=
  c10_theorem analyserInit { analyserInit with lastSeenVolume := some 0 }
    1 0 (some 99999) rfl rfl rfl

/-! ## C3 -/

/-- C3: evaluation of the registered/unregistered callbacks over an entity
lifecycle.  `init` registers the bound `_updateAnalysis` under group
"audio-analyser", but `remove` unregisters the bound `_runScheduledWork` — a
distinct callback that was never registered.  Starting from an empty
scheduler registry, after `init` followed by `remove` the registry still
holds the `_updateAnalysis` registration: the unregistration is a no-op and
the dangling registration survives teardown, contradicting the claim that
the same callback is unregistered and nothing dangles. -/
theorem c3_theorem :
    analyserRemoveUnschedule (analyserInitSchedule []) =
      [(AnalyserCallback.updateAnalysisCb, "audio-analyser")] ∧
    (AnalyserCallback.updateAnalysisCb, "audio-analyser") ∈
      analyserRemoveUnschedule (analyserInitSchedule []) ∧
    AnalyserCallback.updateAnalysisCb ≠ AnalyserCallback.runScheduledWorkCb := by
  refine ⟨?_, ?_, by simp⟩ <;>
    simp [analyserRemoveUnschedule, analyserInitSchedule, schedule, unschedule]

/-! ## C9 -/

/-- Removing a listener that does not occur in the list leaves it
unchanged. -/
lemma unsubscribe_of_not_mem {α : Type} [DecidableEq α] :
    ∀ (l : List α) (x : α), x ∉ l → unsubscribe l x = l
  | [], _, _ => rfl
  | a :: rest, x, h => by
    have ha : ¬(a = x) := fun hax => h (hax ▸ List.mem_cons_self a rest)
    have hrest : x ∉ rest := fun hx => h (List.mem_cons_of_mem a hx)
    simp [unsubscribe, ha, unsubscribe_of_not_mem rest x hrest]

/-- Removing a listener just appended to a list it did not occur in restores
the original list. -/
lemma unsubscribe_append_fresh {α : Type} [DecidableEq α] :
    ∀ (l : List α) (x : α), x ∉ l → unsubscribe (l ++ [x]) x = l
  | [], x, _ => by simp [unsubscribe]
  | a :: rest, x, h => by
    have ha : ¬(a = x) := fun hax => h (hax ▸ List.mem_cons_self a rest)
    have hrest : x ∉ rest := fun hx => h (List.mem_cons_of_mem a hx)
    simp [unsubscribe, ha, unsubscribe_append_fresh rest x hrest]

/-- C9: for the local analyser's subscriber list, subscribing an
already-subscribed listener is a no-op, unsubscribing a non-member is a
no-op, and subscribe followed by unsubscribe of the same fresh listener
restores the original list. -/
theorem c9_theorem {α : Type} [DecidableEq α] (l1 l2 l3 : List α)
    (x1 x2 x3 : α) (h1 : x1 ∈ l1) (h2 : x2 ∉ l2) (h3 : x3 ∉ l3) :
    subscribe l1 x1 = l1 ∧ unsubscribe l2 x2 = l2 ∧
    unsubscribe (subscribe l3 x3) x3 = l3 := by
  refine ⟨by simp [subscribe, h1], unsubscribe_of_not_mem l2 x2 h2, ?_⟩
  rw [subscribe, if_neg h3]
  exact unsubscribe_append_fresh l3 x3 h3

/-- C9 witness: the theorem evaluated on concrete subscriber lists of
natural-number listener identities. -/
theorem c9_witness :
    subscribe [0] 0 = [0] ∧ unsubscribe [1] 2 = [1] ∧
    unsubscribe (subscribe [5] 6) 6 = [5] :=
  c9_theorem [0] [1] [5] 0 2 6 (by simp) (by simp) (by simp)

/-! ## C6 -/

/-- C6 counterexample.  The claim says that when the observed peak
(`loudest`) is 0, the selected level is the quietest one.  It is not: on a
tick of the freshly initialized mic-button (where `loudest = 0` and the
envelope is 0) every comparison `volume < loudest * fraction` is
`0 < 0`, i.e. false, so the bucketing falls through to level 7 — the
loudest level, whose icon is "mic-level-7.png", not the quietest
level 1. -/
theorem c6_counterexample :
    micButtonLevel 0 0 = 7 ∧
    (micButtonTick micButtonInit 0).2 = 7 ∧
    (micButtonTick micButtonInit 0).1.loudest = 0 ∧
    micLevels.getD 7 "" = "mic-level-7.png" ∧ (7 : ℕ) ≠ 1 := by
  refine ⟨?_, ?_, ?_, by rfl, by norm_num⟩ <;>
    norm_num [micButtonLevel, micButtonTick, micButtonInit]

/-- C6 (amended): when the observed peak (`loudest`) is 0, no division
occurs — the bucketing multiplies the peak by the threshold fractions, so
there is no division-by-zero fault — but for every nonnegative volume the
selected level is 7, the loudest level, not the quietest one. -/
theorem c6_amended_theorem (volume : ℚ) (hv : 0 ≤ volume) :
    micButtonLevel volume 0 = 7 := by
  simp [micButtonLevel, not_lt.mpr hv]

/-- C6 witness: the amended theorem evaluated at volume 0. -/
theorem c6_witness : micButtonLevel 0 0 = 7 :=
  c6_amended_theorem 0 (by norm_num)

/-! ## C8 -/

/-- A decay step never makes the envelope negative. -/
lemma decayStep_nonneg (dv : ℚ) (h : 0 ≤ dv) : 0 ≤ decayStep dv := by
  unfold decayStep
  split_ifs
  · exact le_refl 0
  · positivity

/-- A decay step shrinks a nonnegative envelope by at least the decay
factor. -/
lemma decayStep_le (dv : ℚ) (h : 0 ≤ dv) : decayStep dv ≤ dv * 0.8 := by
  unfold decayStep
  split_ifs
  · positivity
  · exact le_refl _

/-- Iterated decay steps stay nonnegative and are bounded by geometric
decay. -/
lemma decayStep_iterate_le (dv : ℚ) (h : 0 ≤ dv) :
    ∀ n, 0 ≤ decayStep^[n] dv ∧ decayStep^[n] dv ≤ dv * 0.8 ^ n := by
  intro n
  induction n with
  | zero => simpa using h
  | succ n ih =>
    rw [Function.iterate_succ_apply']
    refine ⟨decayStep_nonneg _ ih.1, ?_⟩
    calc decayStep (decayStep^[n] dv) ≤ decayStep^[n] dv * 0.8 :=
          decayStep_le _ ih.1
      _ ≤ dv * 0.8 ^ n * 0.8 := by
          have := ih.2
          nlinarith
      _ = dv * 0.8 ^ (n + 1) := by ring

/-- From any nonnegative envelope value, iterated decay steps reach exactly
0 after finitely many steps. -/
lemma decayStep_eventually_zero (dv : ℚ) (h : 0 ≤ dv) :
    ∃ N, decayStep^[N] dv = 0 := by
  rcases eq_or_lt_of_le h with heq | hpos
  · exact ⟨0, heq.symm⟩
  · obtain ⟨n, hn⟩ := exists_pow_lt_of_lt_one
      (show (0:ℚ) < 0.001 / dv by positivity) (show (0.8:ℚ) < 1 by norm_num)
    have hlt : dv * (0.8:ℚ) ^ n < 0.001 := by
      rw [lt_div_iff₀ hpos] at hn
      linarith [hn]
    obtain ⟨hy0, hyle⟩ := decayStep_iterate_le dv h n
    refine ⟨n + 1, ?_⟩
    rw [Function.iterate_succ_apply']
    have hy : decayStep^[n] dv * 0.8 < 0.001 := by nlinarith
    simp [decayStep, hy]

/-- The recorded peak after a tick: raised to the input volume on an attack,
otherwise unchanged. -/
lemma micButtonTick_loudest (s : MicButtonState) (iv : ℚ) :
    (micButtonTick s iv).1.loudest =
      if iv > s.decayingVolume then max s.loudest iv else s.loudest := by
  unfold micButtonTick
  split_ifs <;> rfl

/-- The envelope after a tick: the input volume on an attack, otherwise one
decay step (with the state's decay factor). -/
lemma micButtonTick_decayingVolume (s : MicButtonState) (iv : ℚ) :
    (micButtonTick s iv).1.decayingVolume =
      if iv > s.decayingVolume then iv
      else if s.decayingVolume * s.smoothing < 0.001 then 0
      else s.decayingVolume * s.smoothing := by
  unfold micButtonTick
  split_ifs <;> rfl

/-- C8: for the mic-button envelope, over any tick from a state satisfying
the invariant (nonnegative envelope that never exceeds the recorded peak,
with the decay factor 0.8 set by `init`): the recorded peak `loudest` never
decreases, the invariant is preserved, a tick whose input volume does not
exceed the envelope performs exactly one `decayStep` (multiply by 0.8, snap
to exactly 0 below 0.001), iterating decay steps from the current envelope
reaches exactly 0 after finitely many steps and 0 is a fixed point, and the
freshly initialized state satisfies the invariant. -/
theorem c8_theorem (s : MicButtonState) (iv iv2 : ℚ)
    (hdv : 0 ≤ s.decayingVolume) (hle : s.decayingVolume ≤ s.loudest)
    (hs : s.smoothing = 0.8) (hiv2 : iv2 ≤ s.decayingVolume) :
    s.loudest ≤ (micButtonTick s iv).1.loudest ∧
    (0 ≤ (micButtonTick s iv).1.decayingVolume ∧
      (micButtonTick s iv).1.decayingVolume ≤ (micButtonTick s iv).1.loudest) ∧
    (micButtonTick s iv2).1.decayingVolume = decayStep s.decayingVolume ∧
    (∃ N, decayStep^[N] s.decayingVolume = 0) ∧
    decayStep 0 = 0 ∧
    (0 ≤ micButtonInit.decayingVolume ∧
      micButtonInit.decayingVolume ≤ micButtonInit.loudest) := by
  have hloud : 0 ≤ s.loudest := le_trans hdv hle
  refine ⟨?_, ?_, ?_, decayStep_eventually_zero _ hdv, by norm_num [decayStep],
    by norm_num [micButtonInit]⟩
  · rw [micButtonTick_loudest]
    split_ifs
    · exact le_max_left _ _
    · exact le_refl _
  · rw [micButtonTick_decayingVolume, micButtonTick_loudest]
    split_ifs with hattack hsnap
    · exact ⟨le_trans hdv (le_of_lt hattack), le_max_right _ _⟩
    · exact ⟨le_refl 0, hloud⟩
    · refine ⟨by rw [hs]; positivity, ?_⟩
      have h1 : s.decayingVolume * s.smoothing ≤ s.decayingVolume := by
        rw [hs]; nlinarith
      exact le_trans h1 hle
  · rw [micButtonTick_decayingVolume, if_neg (not_lt.mpr hiv2), hs]
    rfl

/-- C8 witness: the theorem evaluated at a concrete mid-decay state
(`loudest = 1`, envelope `1/2`) with an attack input 2 and a decay input
0. -/
theorem c8_witness :
    (1:ℚ) ≤ (micButtonTick ⟨1, "", 1/2, 0.8⟩ 2).1.loudest ∧
    (0 ≤ (micButtonTick ⟨1, "", 1/2, 0.8⟩ 2).1.decayingVolume ∧
      (micButtonTick ⟨1, "", 1/2, 0.8⟩ 2).1.decayingVolume ≤
        (micButtonTick ⟨1, "", 1/2, 0.8⟩ 2).1.loudest) ∧
    (micButtonTick ⟨1, "", 1/2, 0.8⟩ 0).1.decayingVolume =
      decayStep (1/2) ∧
    (∃ N, decayStep^[N] (1/2 : ℚ) = 0) ∧
    decayStep 0 = 0 ∧
    (0 ≤ micButtonInit.decayingVolume ∧
      micButtonInit.decayingVolume ≤ micButtonInit.loudest) :=
  c8_theorem ⟨1, "", 1/2, 0.8⟩ 2 0 (by norm_num) (by norm_num) rfl (by norm_num)

/-! ## C4 and C5 -/

/-- On a nonempty buffer, `getVolume` computes the RMS of the normalized
samples and clamps results below `MIN_VOLUME_THRESHOLD` to exactly 0. -/
lemma getVolume_nonempty (l : List ℤ) (h : l ≠ []) :
    getVolume l =
      some (if rmsOf l < (MIN_VOLUME_THRESHOLD : ℝ) then 0 else rmsOf l) := by
  have hlen : l.length ≠ 0 := fun hc => h (List.length_eq_zero.mp hc)
  have hmap : (l.map fun (lev : ℤ) =>
        (((lev : ℝ) - 128) / 128) * (((lev : ℝ) - 128) / 128)) =
      l.map fun (lev : ℤ) => (((lev : ℝ) - 128) / 128) ^ 2 := by
    apply List.map_congr_left
    intro lev _
    ring
  unfold getVolume rmsOf
  simp only [hmap, hlen, if_false]
  split_ifs <;> rfl

/-- A buffer whose samples are all exactly 128 normalizes to all-zero
amplitudes, so its RMS is 0. -/
lemma rmsOf_all128 (l : List ℤ) (h : ∀ x ∈ l, x = 128) : rmsOf l = 0 := by
  unfold rmsOf
  have hsum : (l.map fun (lev : ℤ) => (((lev : ℝ) - 128) / 128) ^ 2).sum = 0 := by
    apply List.sum_eq_zero
    intro x hx
    rcases List.mem_map.mp hx with ⟨lev, hlev, rfl⟩
    rw [h lev hlev]
    norm_num
  rw [hsum]
  simp [Real.sqrt_zero]

/-- C4 counterexample.  The claim quantifies the all-equal-to-128 case over
buffers "of any length"; the empty buffer vacuously has all samples equal to
128, yet `getVolume` does not return 0 on it: in JS the mean is `0/0 = NaN`,
`Math.sqrt(NaN) = NaN`, and `NaN < 0.01` is false, so `NaN` (modelled
`none`) is returned. -/
theorem c4_counterexample :
    (∀ x ∈ ([] : List ℤ), x = 128) ∧ getVolume [] ≠ some 0 := by
  constructor
  · simp
  · unfold getVolume
    simp

/-- C4 (amended): for every nonempty waveform buffer, `getVolume` returns
the RMS `sqrt(mean of ((sample - 128)/128)^2)` when that RMS is at least
`MIN_VOLUME_THRESHOLD` (0.01), returns exactly 0 when the RMS is below 0.01,
and in particular returns exactly 0 for every nonempty buffer whose samples
all equal 128 (the empty buffer instead yields the JS `NaN`, modelled
`none`). -/
theorem c4_amended_theorem (l1 l2 l3 : List ℤ)
    (h1ne : l1 ≠ []) (h1 : (MIN_VOLUME_THRESHOLD : ℝ) ≤ rmsOf l1)
    (h2ne : l2 ≠ []) (h2 : rmsOf l2 < (MIN_VOLUME_THRESHOLD : ℝ))
    (h3ne : l3 ≠ []) (h3 : ∀ x ∈ l3, x = 128) :
    getVolume l1 = some (rmsOf l1) ∧ getVolume l2 = some 0 ∧
    getVolume l3 = some 0 := by
  refine ⟨?_, ?_, ?_⟩
  · rw [getVolume_nonempty l1 h1ne, if_neg (not_lt.mpr h1)]
  · rw [getVolume_nonempty l2 h2ne, if_pos h2]
  · rw [getVolume_nonempty l3 h3ne, rmsOf_all128 l3 h3, if_pos]
    norm_num [MIN_VOLUME_THRESHOLD]

/-- C4 witness: the amended theorem evaluated on the one-sample buffers
`[0]` (RMS 1, returned as-is), `[128]` (RMS 0, clamped to 0) and the
all-128 buffer `[128]`. -/
theorem c4_witness :
    getVolume [0] = some (rmsOf [0]) ∧ getVolume [128] = some 0 ∧
    getVolume [128] = some 0 :=
  c4_amended_theorem [0] [128] [128]
    (by simp) (by unfold rmsOf; norm_num [MIN_VOLUME_THRESHOLD])
    (by simp) (by unfold rmsOf; norm_num [MIN_VOLUME_THRESHOLD])
    (by simp) (by simp)

/-- C5 counterexample.  The claim says the zero-length buffer is treated as
volume 0; instead the computation yields JS `NaN` (modelled `none`), because
`0/0 = NaN` fails the `< MIN_VOLUME_THRESHOLD` comparison and is returned
unclamped. -/
theorem c5_counterexample : getVolume [] = none ∧ getVolume [] ≠ some 0 := by
  constructor <;> (unfold getVolume; simp)

/-- C5 (amended): the volume computation is a total function — no exception
propagates for any input buffer — and the zero-length buffer is the one and
only input on which it produces the non-numeric `NaN` (modelled `none`)
rather than a numeric volume; it does not return 0 there. -/
theorem c5_amended_theorem (levels : List ℤ) :
    getVolume levels = none ↔ levels = [] := by
  unfold getVolume
  rcases levels with _ | ⟨a, rest⟩
  · simp
  · simp only [List.length_cons, Nat.succ_ne_zero, if_false]
    split_ifs <;> simp

/-! ## C7 -/

/-- C7: `getAudioFeedbackScale` equals
`min(maxScale, minScale + (maxScale - minScale) * volume * 8 * (distance/10))`
for the world distance between the two positions; at volume 0 it is exactly
`minScale` regardless of the positions; and for every nonnegative volume the
result lies between `minScale` and `maxScale` (given the configured
`minScale ≤ maxScale`, as with the schema defaults 1 and 2). -/
theorem c7_theorem (fromPos toPos : Vec3) (minScale maxScale volume : ℝ)
    (hscale : minScale ≤ maxScale) (hvol : 0 ≤ volume) :
    getAudioFeedbackScale fromPos toPos minScale maxScale volume =
      min maxScale (minScale + (maxScale - minScale) * volume * 8 *
        (distanceTo fromPos toPos / 10)) ∧
    getAudioFeedbackScale fromPos toPos minScale maxScale 0 = minScale ∧
    minScale ≤ getAudioFeedbackScale fromPos toPos minScale maxScale volume ∧
    getAudioFeedbackScale fromPos toPos minScale maxScale volume ≤ maxScale := by
  have hdist : 0 ≤ distanceTo fromPos toPos / 10 :=
    div_nonneg (Real.sqrt_nonneg _) (by norm_num)
  refine ⟨rfl, ?_, ?_, min_le_left _ _⟩
  · show min maxScale (minScale + (maxScale - minScale) * 0 * 8 *
      (distanceTo fromPos toPos / 10)) = minScale
    rw [show minScale + (maxScale - minScale) * 0 * 8 *
      (distanceTo fromPos toPos / 10) = minScale by ring]
    exact min_eq_right hscale
  · show minScale ≤ min maxScale (minScale + (maxScale - minScale) * volume *
      8 * (distanceTo fromPos toPos / 10))
    refine le_min hscale ?_
    have hnn : 0 ≤ (maxScale - minScale) * volume * 8 *
        (distanceTo fromPos toPos / 10) :=
      mul_nonneg (mul_nonneg (mul_nonneg (sub_nonneg.mpr hscale) hvol)
        (by norm_num)) hdist
    linarith

/-- C7 witness: the theorem evaluated at coincident positions with the
schema default scales 1 and 2 and volume 0. -/
theorem c7_witness :
    getAudioFeedbackScale ⟨0, 0, 0⟩ ⟨0, 0, 0⟩ 1 2 0 =
      min 2 (1 + (2 - 1) * 0 * 8 * (distanceTo ⟨0, 0, 0⟩ ⟨0, 0, 0⟩ / 10)) ∧
    getAudioFeedbackScale ⟨0, 0, 0⟩ ⟨0, 0, 0⟩ 1 2 0 = 1 ∧
    (1 : ℝ) ≤ getAudioFeedbackScale ⟨0, 0, 0⟩ ⟨0, 0, 0⟩ 1 2 0 ∧
    getAudioFeedbackScale ⟨0, 0, 0⟩ ⟨0, 0, 0⟩ 1 2 0 ≤ 2 :=
  c7_theorem ⟨0, 0, 0⟩ ⟨0, 0, 0⟩ 1 2 0 (by norm_num) (le_refl 0)

end AudioFeedback
